import Mathlib

/-!
Verification of the RapidTrack issue-lifecycle and SLA engine.

This file gives a shallow embedding of the server-side engine of the
repository: the shared enums (`shared/schema.ts`), the in-memory entity
store (`storage.ts`: `calculateSlaStatus`, `MemStorage.createIssue`,
`getIssue`, `getAllIssues`, `updateIssueStatus`, `escalateIssue`,
`createActivity`, `getIssueCountsByStatus`) and the route handlers of
`server/routes.ts` (`PATCH /api/issues/:id/status`,
`PATCH /api/issues/:id/escalate`,
`PATCH /api/issues/:id/reassign-department`).

Modelling conventions:
- Timestamps are epoch milliseconds (`Int`).  The current time (`new
  Date()` in the source) is passed explicitly as a `now` parameter; one
  request handler runs at a single instant.
- `Date.setHours(getHours() + h)` in `createIssue` is modelled as adding
  `h * 3600000` milliseconds (the UTC / no-DST reading).
- The JavaScript floating-point comparison
  `(timeLeft / totalTime) * 100 <= 25` is modelled by the exact rational
  comparison over `Int` (`percentTimeLeftLe25`); at the call site
  `timeLeft ≥ 0` always holds, and for `totalTime = 0` the JS comparison
  against `Infinity`/`NaN` is `false`, as modelled.
- A JavaScript `Map` is modelled as a `List` keyed by id: `Map.set` on an
  existing key replaces in place, otherwise appends (insertion order).
- The `Record<IssueStatus, number>` built by `getIssueCountsByStatus` is
  modelled as an association list with `Option Nat` values, where `none`
  stands for the JavaScript `NaN` produced by `undefined + 1`.
-/

namespace RapidTrack

/-- `UserRole` enum from `shared/schema.ts`. -/
inductive UserRole
  | employee
  | department
  | admin
deriving DecidableEq, Repr

/-- `IssueStatus` enum from `shared/schema.ts` (eight values). -/
inductive IssueStatus
  | open_
  | in_progress
  | pending
  | completed
  | verified
  | rejected
  | closed
  | escalated
deriving DecidableEq, Repr

/-- `Department` enum from `shared/schema.ts`. -/
inductive Department
  | it
  | hr
  | adminDept
  | finance
  | legal
deriving DecidableEq, Repr

/-- `SLAPriority` enum from `shared/schema.ts`. -/
inductive SLAPriority
  | low
  | medium
  | high
  | critical
deriving DecidableEq, Repr

/-- `SLAStatus` enum from `shared/schema.ts`. -/
inductive SLAStatus
  | on_track
  | at_risk
  | breached
  | completed
deriving DecidableEq, Repr

/-- `Comment` type from `shared/schema.ts`. -/
structure Comment where
  id : String
  userId : Nat
  userName : String
  text : String
  timestamp : Int
deriving DecidableEq, Repr

/-- The `Issue` entity (`issues` table shape from `shared/schema.ts` as
stored by `MemStorage`).  `priority` is an `Option` because
`createIssue` guards on the JavaScript truthiness of
`insertIssue.priority` (`none` models an absent or empty value). -/
structure Issue where
  id : Nat
  title : String
  description : String
  department : Department
  status : IssueStatus
  priority : Option SLAPriority
  reporterId : Nat
  assigneeId : Option Nat
  createdAt : Int
  updatedAt : Int
  dueBy : Option Int
  slaStatus : SLAStatus
  isEscalated : Bool
  comments : List Comment
deriving DecidableEq, Repr

/-- The `User` entity (fields relevant to route authorization). -/
structure User where
  id : Nat
  role : UserRole
  department : Department
deriving DecidableEq, Repr

/-- The `Activity` detail payload (`details` JSON in `storage.ts` /
`routes.ts`), one shape per action kind. -/
inductive ActivityDetails
  | created (title : String)
  | updatedStatus (fromStatus toStatus : IssueStatus)
  | assigned (assigneeId : Nat)
  | escalatedReason (reason : String)
  | commented (commentId : String)
  | departmentChanged (fromDepartment toDepartment : Department)
deriving DecidableEq, Repr

/-- The `Activity` entity from `shared/schema.ts`. -/
structure Activity where
  id : Nat
  issueId : Nat
  userId : Nat
  action : String
  details : ActivityDetails
  createdAt : Int
deriving DecidableEq, Repr

/-- Exact-rational model of the JavaScript test
`(timeLeft / totalTime) * 100 <= 25` inside `calculateSlaStatus`
(`storage.ts` lines 161-165).  For `totalTime > 0` it is
`4 * timeLeft ≤ totalTime`; dividing by a negative flips the
inequality; at `totalTime = 0` the JS quotient is `Infinity` or `NaN`
(the call site has `timeLeft ≥ 0`), whose comparison is `false`. -/
def percentTimeLeftLe25 (timeLeft totalTime : Int) : Bool :=
  if 0 < totalTime then 4 * timeLeft ≤ totalTime
  else if totalTime < 0 then totalTime ≤ 4 * timeLeft
  else false

/-- `calculateSlaStatus` from `storage.ts` lines 146-170, with the clock
passed explicitly.  Note the source checks `!issue.dueBy` *before* the
verified/closed check. -/
def calculateSlaStatus (issue : Issue) (now : Int) : SLAStatus :=
  match issue.dueBy with
  | none => SLAStatus.on_track
  | some dueDate =>
    if issue.status = IssueStatus.verified ∨ issue.status = IssueStatus.closed then
      SLAStatus.completed
    else if dueDate < now then
      SLAStatus.breached
    else
      let timeLeft := dueDate - now
      let totalTime := dueDate - issue.createdAt
      if percentTimeLeftLe25 timeLeft totalTime then SLAStatus.at_risk
      else SLAStatus.on_track

/-- Hours added to `createdAt` per priority: the `switch` in
`MemStorage.createIssue` (`storage.ts` lines 298-311), identical to the
`SLATimes` table of `shared/schema.ts`. -/
def hoursToAdd (p : SLAPriority) : Int :=
  match p with
  | SLAPriority.critical => 4
  | SLAPriority.high => 8
  | SLAPriority.medium => 24
  | SLAPriority.low => 48

/-- Milliseconds per hour. -/
def msPerHour : Int := 3600000

/-- The parsed `insertIssueSchema` payload (`shared/schema.ts` lines
95-102).  `status` carries the client-supplied value (the zod schema
leaves it optional with database default `open`; the model requires it
present). -/
structure InsertIssue where
  title : String
  description : String
  department : Department
  status : IssueStatus
  priority : Option SLAPriority
  reporterId : Nat
deriving DecidableEq, Repr

/-- The issue record built by `MemStorage.createIssue` (`storage.ts`
lines 288-339), before it is inserted into the map. -/
def createIssueRecord (insertIssue : InsertIssue) (id : Nat) (now : Int) : Issue :=
  let dueBy : Option Int :=
    match insertIssue.priority with
    | some p => some (now + hoursToAdd p * msPerHour)
    | none => none
  { id := id
    title := insertIssue.title
    description := insertIssue.description
    department := insertIssue.department
    status := insertIssue.status
    priority := insertIssue.priority
    reporterId := insertIssue.reporterId
    assigneeId := none
    createdAt := now
    updatedAt := now
    dueBy := dueBy
    slaStatus := SLAStatus.on_track
    isEscalated := false
    comments := [] }

/-- The opportunistic SLA refresh performed by every read path
(`getIssue` / `getAllIssues` in `storage.ts`). -/
def refreshIssue (issue : Issue) (now : Int) : Issue :=
  { issue with slaStatus := calculateSlaStatus issue now }

/-- The in-memory entity store (`MemStorage` in `storage.ts`); the
JavaScript `Map`s are lists keyed by id in insertion order. -/
structure MemStorage where
  issuesMap : List Issue
  activitiesMap : List Activity
  issueIdCounter : Nat
  activityIdCounter : Nat
deriving DecidableEq, Repr

/-- `issuesMap.get(id)`: first record with the given id. -/
def findIssue (s : MemStorage) (id : Nat) : Option Issue :=
  s.issuesMap.find? (fun i => i.id == id)

/-- `issuesMap.set(issue.id, issue)`: replace in place when the key
exists, otherwise append (JavaScript `Map` insertion order). -/
def setIssue (issues : List Issue) (issue : Issue) : List Issue :=
  if issues.any (fun i => i.id == issue.id) then
    issues.map (fun i => if i.id == issue.id then issue else i)
  else
    issues ++ [issue]

/-- `this.issuesMap.set(id, updatedIssue)` at store level. -/
def MemStorage.setIssueState (s : MemStorage) (u : Issue) : MemStorage :=
  { s with issuesMap := setIssue s.issuesMap u }

/-- `MemStorage.getIssue` (`storage.ts` lines 341-350): refresh the SLA
status of the record, write the refreshed record back, return it. -/
def MemStorage.getIssue (s : MemStorage) (id : Nat) (now : Int) :
    Option Issue × MemStorage :=
  match findIssue s id with
  | some issue =>
      let updatedIssue := refreshIssue issue now
      (some updatedIssue, s.setIssueState updatedIssue)
  | none => (none, s)

/-- `MemStorage.getAllIssues` (`storage.ts` lines 352-363): refresh
every record's SLA status in place and return the refreshed list. -/
def MemStorage.getAllIssues (s : MemStorage) (now : Int) :
    List Issue × MemStorage :=
  let refreshed := s.issuesMap.map (fun issue => refreshIssue issue now)
  (refreshed, { s with issuesMap := refreshed })

/-- `MemStorage.createIssue` (`storage.ts` lines 288-339): allocate an
id, build the record, insert it, and append a `created` activity. -/
def MemStorage.createIssue (s : MemStorage) (insertIssue : InsertIssue) (now : Int) :
    Issue × MemStorage :=
  let id := s.issueIdCounter
  let issue := createIssueRecord insertIssue id now
  let activity : Activity :=
    { id := s.activityIdCounter
      issueId := id
      userId := insertIssue.reporterId
      action := "created"
      details := ActivityDetails.created insertIssue.title
      createdAt := now }
  (issue,
   { issuesMap := setIssue s.issuesMap issue
     activitiesMap := s.activitiesMap ++ [activity]
     issueIdCounter := id + 1
     activityIdCounter := s.activityIdCounter + 1 })

/-- The `updatedIssue` record literal built by
`MemStorage.updateIssueStatus` (`storage.ts` lines 394-404): overwrite
`status` and `updatedAt`, with `slaStatus` forced to `completed` when
the target is verified/closed, otherwise recomputed on the record with
the new status. -/
def applyStatus (issue : Issue) (status : IssueStatus) (now : Int) : Issue :=
  { issue with
    status := status
    updatedAt := now
    slaStatus :=
      if status = IssueStatus.verified ∨ status = IssueStatus.closed then
        SLAStatus.completed
      else
        calculateSlaStatus { issue with status := status } now }

/-- `MemStorage.updateIssueStatus` (`storage.ts` lines 389-408): read
(and refresh) the issue, then store the `applyStatus` record. -/
def MemStorage.updateIssueStatus (s : MemStorage) (id : Nat) (status : IssueStatus)
    (now : Int) : Option Issue × MemStorage :=
  match s.getIssue id now with
  | (none, s1) => (none, s1)
  | (some issue, s1) =>
      let updatedIssue := applyStatus issue status now
      (some updatedIssue, s1.setIssueState updatedIssue)

/-- The `updatedIssue` record literal built by
`MemStorage.escalateIssue` (`storage.ts` lines 431-436). -/
def applyEscalate (issue : Issue) (now : Int) : Issue :=
  { issue with
    isEscalated := true
    status := IssueStatus.escalated
    updatedAt := now }

/-- `MemStorage.escalateIssue` (`storage.ts` lines 426-440). -/
def MemStorage.escalateIssue (s : MemStorage) (id : Nat) (now : Int) :
    Option Issue × MemStorage :=
  match s.getIssue id now with
  | (none, s1) => (none, s1)
  | (some issue, s1) =>
      let updatedIssue := applyEscalate issue now
      (some updatedIssue, s1.setIssueState updatedIssue)

/-- Modelled from the spec: the record mutation of
`reassignDepartment` — "mutates `department`; does not change status",
with `updated-at` "bumped on every mutation" (spec §3, §4.2). -/
def applyDepartment (issue : Issue) (department : Department) (now : Int) : Issue :=
  { issue with
    department := department
    updatedAt := now }

/-- Modelled from the spec: `MemStorage.updateIssueDepartment` is
invoked by the reassign-department route (`routes.ts` line 385) but its
definition is missing from the sources (neither `IStorage` nor
`MemStorage` in `storage.ts` declares it).  Per the spec's operation
contract it mutates only the department (plus the updated-at bump); the
read/write pattern follows the sibling storage mutators. -/
def MemStorage.updateIssueDepartment (s : MemStorage) (id : Nat)
    (department : Department) (now : Int) : Option Issue × MemStorage :=
  match s.getIssue id now with
  | (none, s1) => (none, s1)
  | (some issue, s1) =>
      let updatedIssue := applyDepartment issue department now
      (some updatedIssue, s1.setIssueState updatedIssue)

/-- `MemStorage.createActivity` (`storage.ts` lines 477-483). -/
def MemStorage.createActivity (s : MemStorage) (issueId userId : Nat)
    (action : String) (details : ActivityDetails) (now : Int) :
    Activity × MemStorage :=
  let activity : Activity :=
    { id := s.activityIdCounter
      issueId := issueId
      userId := userId
      action := action
      details := details
      createdAt := now }
  (activity,
   { s with
     activitiesMap := s.activitiesMap ++ [activity]
     activityIdCounter := s.activityIdCounter + 1 })

/-- The association record built by `getIssueCountsByStatus`:
`Option Nat` values, where `none` models the JavaScript `NaN` that
`undefined + 1` produces for a key absent from the literal. -/
abbrev StatusCountRecord := List (IssueStatus × Option Nat)

/-- The object literal initialising the counts record (`storage.ts`
lines 533-541).  It mirrors the source exactly: the `pending` key is
absent from the literal. -/
def initialStatusCounts : StatusCountRecord :=
  [(IssueStatus.open_, some 0),
   (IssueStatus.in_progress, some 0),
   (IssueStatus.completed, some 0),
   (IssueStatus.verified, some 0),
   (IssueStatus.rejected, some 0),
   (IssueStatus.closed, some 0),
   (IssueStatus.escalated, some 0)]

/-- `result[issue.status] += 1` on a JavaScript object: increment an
existing numeric entry, keep `NaN` as `NaN`, and create the key with
`NaN` (`undefined + 1`) when it is absent. -/
def bumpStatusCount (r : StatusCountRecord) (st : IssueStatus) : StatusCountRecord :=
  if r.any (fun p => p.1 == st) then
    r.map (fun p => if p.1 == st then (p.1, p.2.map (· + 1)) else p)
  else
    r ++ [(st, none)]

/-- Key lookup in the counts record (`record[status]` on the result). -/
def lookupStatusCount (r : StatusCountRecord) (st : IssueStatus) : Option (Option Nat) :=
  (r.find? (fun p => p.1 == st)).map (fun p => p.2)

/-- `MemStorage.getIssueCountsByStatus` (`storage.ts` lines 531-548). -/
def MemStorage.getIssueCountsByStatus (s : MemStorage) (now : Int) :
    StatusCountRecord × MemStorage :=
  let (issues, s1) := s.getAllIssues now
  (issues.foldl (fun r issue => bumpStatusCount r issue.status) initialStatusCounts, s1)

/-- Typed failures the route handlers return (`routes.ts` /
spec §7 error kinds). -/
inductive RouteError
  | notFound
  | forbidden
  | invalidTransition
  | alreadyEscalated
  | validationError
  | noOpChange
deriving DecidableEq, Repr

/-- A handler outcome: a typed failure, or the JSON body — the `Issue`
returned by the storage call (an `Option`, since the source serialises
the storage result as-is). -/
inductive RouteResponse
  | err (e : RouteError)
  | ok (issue : Option Issue)
deriving DecidableEq, Repr

/-- `PATCH /api/issues/:id/status` (`routes.ts` lines 119-180).
Employee branch: reporter-only, and only `completed -> verified｜rejected`.
Department branch: own department, and only
`open -> in_progress`, `in_progress -> pending`,
`in_progress｜pending -> completed`.  Any other role (Admin) falls
through with no transition validation. -/
def patchIssueStatus (s : MemStorage) (user : User) (id : Nat)
    (status : IssueStatus) (now : Int) : RouteResponse × MemStorage :=
  match s.getIssue id now with
  | (none, s1) => (RouteResponse.err RouteError.notFound, s1)
  | (some issue, s1) =>
      let proceed : RouteResponse × MemStorage :=
        let (updated, s2) := s1.updateIssueStatus id status now
        let (_, s3) := s2.createActivity id user.id "updated_status"
          (ActivityDetails.updatedStatus issue.status status) now
        (RouteResponse.ok updated, s3)
      if user.role = UserRole.employee then
        if issue.reporterId ≠ user.id then
          (RouteResponse.err RouteError.forbidden, s1)
        else if issue.status ≠ IssueStatus.completed ∨
            (status ≠ IssueStatus.verified ∧ status ≠ IssueStatus.rejected) then
          (RouteResponse.err RouteError.invalidTransition, s1)
        else proceed
      else if user.role = UserRole.department then
        if issue.department ≠ user.department then
          (RouteResponse.err RouteError.forbidden, s1)
        else if (status = IssueStatus.in_progress ∧ issue.status = IssueStatus.open_) ∨
            (status = IssueStatus.pending ∧ issue.status = IssueStatus.in_progress) ∨
            (status = IssueStatus.completed ∧
              (issue.status = IssueStatus.in_progress ∨ issue.status = IssueStatus.pending)) then
          proceed
        else
          (RouteResponse.err RouteError.invalidTransition, s1)
      else proceed

/-- `PATCH /api/issues/:id/escalate` (`routes.ts` lines 215-268).
Employee branch: reporter-only, rejects already-escalated and
verified/closed issues, and otherwise proceeds — the source comment
reads "For testing purposes, allow escalation without time
restrictions".  Department branch: own department only, no other
checks.  Admin: no checks. -/
def patchIssueEscalate (s : MemStorage) (user : User) (id : Nat)
    (reason : Option String) (now : Int) : RouteResponse × MemStorage :=
  match s.getIssue id now with
  | (none, s1) => (RouteResponse.err RouteError.notFound, s1)
  | (some issue, s1) =>
      let proceed : RouteResponse × MemStorage :=
        let (updated, s2) := s1.escalateIssue id now
        let (_, s3) := s2.createActivity id user.id "escalated"
          (ActivityDetails.escalatedReason (reason.getD "Manual escalation")) now
        (RouteResponse.ok updated, s3)
      if user.role = UserRole.employee then
        if issue.reporterId ≠ user.id then
          (RouteResponse.err RouteError.forbidden, s1)
        else if issue.isEscalated then
          (RouteResponse.err RouteError.alreadyEscalated, s1)
        else if issue.status = IssueStatus.verified ∨ issue.status = IssueStatus.closed then
          (RouteResponse.err RouteError.invalidTransition, s1)
        else proceed
      else if user.role = UserRole.department then
        if issue.department ≠ user.department then
          (RouteResponse.err RouteError.forbidden, s1)
        else proceed
      else proceed

/-- `PATCH /api/issues/:id/reassign-department` (`routes.ts` lines
366-402), including the `requireRole([ADMIN])` middleware.  The
department body value is `Option Department`: `none` models an absent
or invalid value (`!department || !includes(department)`). -/
def patchReassignDepartment (s : MemStorage) (user : User) (id : Nat)
    (department : Option Department) (now : Int) : RouteResponse × MemStorage :=
  if user.role ≠ UserRole.admin then
    (RouteResponse.err RouteError.forbidden, s)
  else
    match department with
    | none => (RouteResponse.err RouteError.validationError, s)
    | some d =>
        match s.getIssue id now with
        | (none, s1) => (RouteResponse.err RouteError.notFound, s1)
        | (some issue, s1) =>
            if issue.department = d then
              (RouteResponse.err RouteError.noOpChange, s1)
            else
              let (updated, s2) := s1.updateIssueDepartment id d now
              let (_, s3) := s2.createActivity id user.id "department_changed"
                (ActivityDetails.departmentChanged issue.department d) now
              (RouteResponse.ok updated, s3)

/-- The status-transition graph of spec §4.2 (the seven listed edges),
stated from the spec's words for comparison with the route handlers. -/
def specAllowedEdge (fromStatus toStatus : IssueStatus) : Bool :=
  match fromStatus, toStatus with
  | IssueStatus.open_, IssueStatus.in_progress => true
  | IssueStatus.in_progress, IssueStatus.pending => true
  | IssueStatus.in_progress, IssueStatus.completed => true
  | IssueStatus.pending, IssueStatus.in_progress => true
  | IssueStatus.pending, IssueStatus.completed => true
  | IssueStatus.completed, IssueStatus.verified => true
  | IssueStatus.completed, IssueStatus.rejected => true
  | _, _ => false

/-! ### Concrete fixtures

Concrete entities used by the counterexamples and witnesses below. -/

/-- A concrete issue record with the given lifecycle-relevant fields. -/
def sampleIssue (id : Nat) (st : IssueStatus) (dept : Department) (reporterId : Nat)
    (createdAt : Int) (priority : Option SLAPriority) (dueBy : Option Int)
    (isEscalated : Bool) : Issue :=
  { id := id
    title := "Printer broken"
    description := "The office printer is down"
    department := dept
    status := st
    priority := priority
    reporterId := reporterId
    assigneeId := none
    createdAt := createdAt
    updatedAt := createdAt
    dueBy := dueBy
    slaStatus := SLAStatus.on_track
    isEscalated := isEscalated
    comments := [] }

/-- A store holding exactly one issue and no activities. -/
def singleIssueStore (issue : Issue) : MemStorage :=
  { issuesMap := [issue]
    activitiesMap := []
    issueIdCounter := issue.id + 1
    activityIdCounter := 1 }

/-- The empty store. -/
def emptyStore : MemStorage :=
  { issuesMap := []
    activitiesMap := []
    issueIdCounter := 1
    activityIdCounter := 1 }

/-- A concrete Admin user. -/
def adminUser : User := { id := 10, role := UserRole.admin, department := Department.it }

/-- A concrete IT Department-Staff user. -/
def staffIT : User := { id := 11, role := UserRole.department, department := Department.it }

/-- A concrete Employee user (used as reporter of fixture issues). -/
def reporterEmp : User := { id := 42, role := UserRole.employee, department := Department.finance }

/-! ### Auxiliary lemmas -/

theorem findIssue_id_eq {s : MemStorage} {id : Nat} {issue : Issue}
    (h : findIssue s id = some issue) : issue.id = id := by
  unfold findIssue at h
  simpa using List.find?_some h

theorem find?_map_replace (u : Issue) :
    ∀ l : List Issue, (l.any fun i => i.id == u.id) = true →
      List.find? (fun i => i.id == u.id)
        (l.map fun i => if i.id == u.id then u else i) = some u := by
  intro l
  induction l with
  | nil => intro h; simp at h
  | cons a t ih =>
      intro h
      by_cases ha : (a.id == u.id) = true
      · simp only [List.map_cons, ha, if_true]
        rw [List.find?_cons_of_pos _ (by simp)]
      · simp only [List.map_cons, ha, if_false]
        rw [List.find?_cons_of_neg _ (by simpa using ha)]
        apply ih
        simpa [List.any_cons, ha] using h

theorem find?_append_new (u : Issue) :
    ∀ l : List Issue, (l.any fun i => i.id == u.id) = false →
      List.find? (fun i => i.id == u.id) (l ++ [u]) = some u := by
  intro l
  induction l with
  | nil => simp
  | cons a t ih =>
      intro h
      simp only [List.any_cons, Bool.or_eq_false_iff] at h
      rw [List.cons_append, List.find?_cons_of_neg _ (by simp [h.1])]
      exact ih h.2

theorem find?_setIssue (l : List Issue) (u : Issue) :
    List.find? (fun i => i.id == u.id) (setIssue l u) = some u := by
  unfold setIssue
  cases hany : l.any fun i => i.id == u.id
  · rw [if_neg (by simp)]
    exact find?_append_new u l hany
  · rw [if_pos rfl]
    exact find?_map_replace u l hany

theorem findIssue_setIssueState (s : MemStorage) (u : Issue) (id : Nat)
    (hid : u.id = id) :
    findIssue (s.setIssueState u) id = some u := by
  subst hid
  unfold findIssue MemStorage.setIssueState
  exact find?_setIssue s.issuesMap u

theorem getIssue_found {s : MemStorage} {id : Nat} {issue : Issue} (now : Int)
    (hfind : findIssue s id = some issue) :
    s.getIssue id now =
      (some (refreshIssue issue now), s.setIssueState (refreshIssue issue now)) := by
  unfold MemStorage.getIssue
  rw [hfind]

theorem refreshIssue_id (issue : Issue) (now : Int) :
    (refreshIssue issue now).id = issue.id := rfl

theorem updateIssueStatus_found {s : MemStorage} {id : Nat} {issue : Issue}
    (st : IssueStatus) (now : Int)
    (hfind : findIssue s id = some issue) :
    s.updateIssueStatus id st now =
      (some (applyStatus (refreshIssue issue now) st now),
       (s.setIssueState (refreshIssue issue now)).setIssueState
         (applyStatus (refreshIssue issue now) st now)) := by
  unfold MemStorage.updateIssueStatus
  rw [getIssue_found now hfind]

theorem escalateIssue_found {s : MemStorage} {id : Nat} {issue : Issue}
    (now : Int)
    (hfind : findIssue s id = some issue) :
    s.escalateIssue id now =
      (some (applyEscalate (refreshIssue issue now) now),
       (s.setIssueState (refreshIssue issue now)).setIssueState
         (applyEscalate (refreshIssue issue now) now)) := by
  unfold MemStorage.escalateIssue
  rw [getIssue_found now hfind]

theorem updateIssueDepartment_found {s : MemStorage} {id : Nat} {issue : Issue}
    (d : Department) (now : Int)
    (hfind : findIssue s id = some issue) :
    s.updateIssueDepartment id d now =
      (some (applyDepartment (refreshIssue issue now) d now),
       (s.setIssueState (refreshIssue issue now)).setIssueState
         (applyDepartment (refreshIssue issue now) d now)) := by
  unfold MemStorage.updateIssueDepartment
  rw [getIssue_found now hfind]

theorem specAllowedEdge_false_employee (a b : IssueStatus)
    (h : specAllowedEdge a b = false) :
    a ≠ IssueStatus.completed ∨ (b ≠ IssueStatus.verified ∧ b ≠ IssueStatus.rejected) := by
  revert h; cases a <;> cases b <;> decide

theorem specAllowedEdge_false_staff (a b : IssueStatus)
    (h : specAllowedEdge a b = false) :
    ¬((b = IssueStatus.in_progress ∧ a = IssueStatus.open_) ∨
      (b = IssueStatus.pending ∧ a = IssueStatus.in_progress) ∨
      (b = IssueStatus.completed ∧
        (a = IssueStatus.in_progress ∨ a = IssueStatus.pending))) := by
  revert h; cases a <;> cases b <;> decide

/-- For a positive total time, the exact-rational model of the at-risk
test agrees with the spec's percentage formula. -/
theorem percentTimeLeftLe25_iff (t T : Int) (hT : 0 < T) :
    percentTimeLeftLe25 t T = true ↔ ((t : ℚ) / (T : ℚ)) * 100 ≤ 25 := by
  unfold percentTimeLeftLe25
  rw [if_pos hT, decide_eq_true_eq]
  have hTq : (0 : ℚ) < (T : ℚ) := by exact_mod_cast hT
  rw [div_mul_eq_mul_div, div_le_iff₀ hTq]
  constructor
  · intro h
    have h2 : ((4 * t : Int) : ℚ) ≤ ((T : Int) : ℚ) := by exact_mod_cast h
    push_cast at h2
    nlinarith
  · intro h
    have h2 : (4 * (t : ℚ)) ≤ (T : ℚ) := by nlinarith
    exact_mod_cast h2

/-- For a non-terminal issue with a deadline, `calculateSlaStatus`
reduces to the breach/at-risk/on-track cascade. -/
theorem calculateSlaStatus_nonterminal (issue : Issue) (now d : Int)
    (hdue : issue.dueBy = some d)
    (hv : issue.status ≠ IssueStatus.verified)
    (hc : issue.status ≠ IssueStatus.closed) :
    calculateSlaStatus issue now =
      if d < now then SLAStatus.breached
      else if percentTimeLeftLe25 (d - now) (d - issue.createdAt) then SLAStatus.at_risk
      else SLAStatus.on_track := by
  unfold calculateSlaStatus
  rw [hdue]
  dsimp only
  rw [if_neg (by simp [hv, hc])]

/-! ### Claim theorems -/

/-- **C1** (counterexample): the claim asserts the computed SLA status of a
verified/closed issue is `completed` regardless of the `dueBy` field.
It is false: `calculateSlaStatus` checks `!issue.dueBy` first, so a
verified issue with no `dueBy` reads as `on_track`, not `completed`. -/
theorem terminal_issue_without_dueBy_reads_on_track :
    calculateSlaStatus
      (sampleIssue 1 IssueStatus.verified Department.it 42 0 none none false) 999999 =
      SLAStatus.on_track ∧
    SLAStatus.on_track ≠ SLAStatus.completed := by decide

/-- **C1** (amended): for every issue whose `dueBy` is set, a
verified/closed status makes every read compute `completed`, for every
clock value; and `updateIssueStatus` to verified/closed stores
`slaStatus = completed` unconditionally. -/
theorem terminal_sla_completed_with_dueBy
    (issue issue0 : Issue) (now d : Int) (s : MemStorage) (id : Nat) (st : IssueStatus)
    (hdue : issue.dueBy = some d)
    (hterm : issue.status = IssueStatus.verified ∨ issue.status = IssueStatus.closed)
    (hfind : findIssue s id = some issue0)
    (hst : st = IssueStatus.verified ∨ st = IssueStatus.closed) :
    calculateSlaStatus issue now = SLAStatus.completed ∧
    (s.updateIssueStatus id st now).1.map Issue.slaStatus = some SLAStatus.completed := by
  constructor
  · unfold calculateSlaStatus
    rw [hdue]
    dsimp only
    rw [if_pos hterm]
  · rw [updateIssueStatus_found st now hfind]
    rcases hst with h | h <;> simp [applyStatus, h]

/-- **C1** witness: a verified issue with a deadline at a late clock. -/
theorem terminal_sla_completed_with_dueBy_witness :
    calculateSlaStatus
      (sampleIssue 2 IssueStatus.verified Department.it 42 0 (some SLAPriority.critical)
        (some 14400000) false) 99999999 = SLAStatus.completed ∧
    ((singleIssueStore
        (sampleIssue 2 IssueStatus.verified Department.it 42 0 (some SLAPriority.critical)
          (some 14400000) false)).updateIssueStatus 2 IssueStatus.closed 5).1.map
      Issue.slaStatus = some SLAStatus.completed :=
  terminal_sla_completed_with_dueBy
    (sampleIssue 2 IssueStatus.verified Department.it 42 0 (some SLAPriority.critical)
      (some 14400000) false)
    (sampleIssue 2 IssueStatus.verified Department.it 42 0 (some SLAPriority.critical)
      (some 14400000) false)
    99999999 14400000
    (singleIssueStore
      (sampleIssue 2 IssueStatus.verified Department.it 42 0 (some SLAPriority.critical)
        (some 14400000) false))
    2 IssueStatus.closed rfl (Or.inl rfl) (by decide) (Or.inr rfl)

/-- **C5**: for every supplied priority, the created issue's `dueBy`
equals `createdAt` plus the fixed offset — 4h for critical, 8h for
high, 24h for medium, 48h for low (in milliseconds). -/
theorem dueBy_adds_fixed_priority_offset
    (insertIssue : InsertIssue) (id : Nat) (now : Int) :
    (createIssueRecord insertIssue id now).createdAt = now ∧
    (insertIssue.priority = some SLAPriority.critical →
      (createIssueRecord insertIssue id now).dueBy = some (now + 4 * 3600000)) ∧
    (insertIssue.priority = some SLAPriority.high →
      (createIssueRecord insertIssue id now).dueBy = some (now + 8 * 3600000)) ∧
    (insertIssue.priority = some SLAPriority.medium →
      (createIssueRecord insertIssue id now).dueBy = some (now + 24 * 3600000)) ∧
    (insertIssue.priority = some SLAPriority.low →
      (createIssueRecord insertIssue id now).dueBy = some (now + 48 * 3600000)) := by
  refine ⟨rfl, ?_, ?_, ?_, ?_⟩ <;>
    intro hp <;> simp [createIssueRecord, hp, hoursToAdd, msPerHour]

/-- **C5** witness: a critical issue created at time 1000. -/
theorem dueBy_adds_fixed_priority_offset_witness :
    (createIssueRecord
      { title := "Printer broken", description := "The office printer is down",
        department := Department.it, status := IssueStatus.open_,
        priority := some SLAPriority.critical, reporterId := 42 } 1 1000).createdAt = 1000 ∧
    (createIssueRecord
      { title := "Printer broken", description := "The office printer is down",
        department := Department.it, status := IssueStatus.open_,
        priority := some SLAPriority.critical, reporterId := 42 } 1 1000).dueBy =
      some (1000 + 4 * 3600000) :=
  ⟨(dueBy_adds_fixed_priority_offset _ 1 1000).1,
   (dueBy_adds_fixed_priority_offset _ 1 1000).2.1 rfl⟩

/-- **C10**: the storage-level `updateIssueStatus` changes only
`status`, `slaStatus` and `updatedAt`; every other field of the stored
issue — title, description, department, priority, reporter, assignee,
creation time, deadline, escalation flag and the comment sequence — is
carried over unchanged. -/
theorem updateIssueStatus_preserves_other_fields
    (s : MemStorage) (id : Nat) (st : IssueStatus) (now : Int) (issue : Issue)
    (hfind : findIssue s id = some issue) :
    (s.updateIssueStatus id st now).1.map Issue.title = some issue.title ∧
    (s.updateIssueStatus id st now).1.map Issue.description = some issue.description ∧
    (s.updateIssueStatus id st now).1.map Issue.department = some issue.department ∧
    (s.updateIssueStatus id st now).1.map Issue.priority = some issue.priority ∧
    (s.updateIssueStatus id st now).1.map Issue.reporterId = some issue.reporterId ∧
    (s.updateIssueStatus id st now).1.map Issue.assigneeId = some issue.assigneeId ∧
    (s.updateIssueStatus id st now).1.map Issue.createdAt = some issue.createdAt ∧
    (s.updateIssueStatus id st now).1.map Issue.dueBy = some issue.dueBy ∧
    (s.updateIssueStatus id st now).1.map Issue.isEscalated = some issue.isEscalated ∧
    (s.updateIssueStatus id st now).1.map Issue.comments = some issue.comments ∧
    (s.updateIssueStatus id st now).1.map Issue.status = some st ∧
    (s.updateIssueStatus id st now).1.map Issue.updatedAt = some now := by
  rw [updateIssueStatus_found st now hfind]
  simp [applyStatus, refreshIssue]

/-- **C10** witness: a concrete pending issue moved to completed. -/
theorem updateIssueStatus_preserves_other_fields_witness :
    ((singleIssueStore
        (sampleIssue 3 IssueStatus.pending Department.hr 42 0 (some SLAPriority.low)
          (some 172800000) false)).updateIssueStatus 3 IssueStatus.completed 50).1.map
      Issue.comments = some [] ∧
    ((singleIssueStore
        (sampleIssue 3 IssueStatus.pending Department.hr 42 0 (some SLAPriority.low)
          (some 172800000) false)).updateIssueStatus 3 IssueStatus.completed 50).1.map
      Issue.department = some Department.hr :=
  ⟨(updateIssueStatus_preserves_other_fields _ 3 IssueStatus.completed 50
      (sampleIssue 3 IssueStatus.pending Department.hr 42 0 (some SLAPriority.low)
        (some 172800000) false)
      (by decide)).2.2.2.2.2.2.2.2.2.1,
   (updateIssueStatus_preserves_other_fields _ 3 IssueStatus.completed 50
      (sampleIssue 3 IssueStatus.pending Department.hr 42 0 (some SLAPriority.low)
        (some 172800000) false)
      (by decide)).2.2.1⟩

/-- **C8** (code bug): `getIssueCountsByStatus` claims to return a
zero-filled entry for every `IssueStatus` value, but the initial record
literal omits the `pending` key: on the empty store the returned record
has no `pending` entry at all, and with one stored pending issue the
`pending` entry is the JavaScript `NaN` (`undefined + 1`, modelled as
`none`) instead of the count 1.  The other statuses count correctly. -/
theorem status_counts_missing_pending_entry :
    lookupStatusCount ((emptyStore).getIssueCountsByStatus 0).1 IssueStatus.pending = none ∧
    lookupStatusCount
      ((singleIssueStore
          (sampleIssue 4 IssueStatus.pending Department.it 42 0 (some SLAPriority.critical)
            (some 14400000) false)).getIssueCountsByStatus 1000).1
      IssueStatus.pending = some none ∧
    ((singleIssueStore
        (sampleIssue 4 IssueStatus.pending Department.it 42 0 (some SLAPriority.critical)
          (some 14400000) false)).issuesMap.filter
      (fun i => i.status == IssueStatus.pending)).length = 1 ∧
    lookupStatusCount
      ((singleIssueStore
          (sampleIssue 4 IssueStatus.pending Department.it 42 0 (some SLAPriority.critical)
            (some 14400000) false)).getIssueCountsByStatus 1000).1
      IssueStatus.open_ = some (some 0) := by decide

/-- **C2** (counterexample): the claim quantifies over every actor, but
an Admin request is not transition-validated at all: an Admin moving an
open issue directly to completed (an edge absent from §4.2) succeeds
and changes the stored status. -/
theorem admin_status_update_skips_transition_validation :
    specAllowedEdge IssueStatus.open_ IssueStatus.completed = false ∧
    (patchIssueStatus
        (singleIssueStore
          (sampleIssue 1 IssueStatus.open_ Department.it 42 0 (some SLAPriority.critical)
            (some 14400000) false))
        adminUser 1 IssueStatus.completed 1000).1 ≠
      RouteResponse.err RouteError.invalidTransition ∧
    (findIssue
        (patchIssueStatus
          (singleIssueStore
            (sampleIssue 1 IssueStatus.open_ Department.it 42 0 (some SLAPriority.critical)
              (some 14400000) false))
          adminUser 1 IssueStatus.completed 1000).2 1).map Issue.status =
      some IssueStatus.completed := by decide

/-- **C2** (amended): for an Employee actor who is the issue's reporter
and for a Department-Staff actor of the issue's department, a status
update along a pair outside the §4.2 graph is rejected with
`InvalidTransition`, and the store is left with only the read path's
opportunistic `slaStatus` refresh of that issue (no status change, no
activity).  Admin requests are not transition-validated. -/
theorem invalid_edge_rejected_for_scoped_nonadmin
    (s : MemStorage) (user : User) (id : Nat) (target : IssueStatus) (now : Int) (issue : Issue)
    (hfind : findIssue s id = some issue)
    (hscope : (user.role = UserRole.employee ∧ issue.reporterId = user.id) ∨
              (user.role = UserRole.department ∧ issue.department = user.department))
    (hedge : specAllowedEdge issue.status target = false) :
    patchIssueStatus s user id target now =
      (RouteResponse.err RouteError.invalidTransition,
       s.setIssueState (refreshIssue issue now)) := by
  unfold patchIssueStatus
  rw [getIssue_found now hfind]
  dsimp only
  rcases hscope with ⟨hrole, hrep⟩ | ⟨hrole, hdept⟩
  · rw [hrole, if_pos rfl]
    rw [if_neg (by simp [refreshIssue, hrep])]
    have hcond : (refreshIssue issue now).status ≠ IssueStatus.completed ∨
        (target ≠ IssueStatus.verified ∧ target ≠ IssueStatus.rejected) := by
      have hst : (refreshIssue issue now).status = issue.status := rfl
      rw [hst]
      exact specAllowedEdge_false_employee _ _ hedge
    rw [if_pos hcond]
  · rw [hrole, if_neg (by decide), if_pos rfl]
    rw [if_neg (by simp [refreshIssue, hdept])]
    have hcond : ¬((target = IssueStatus.in_progress ∧
          (refreshIssue issue now).status = IssueStatus.open_) ∨
        (target = IssueStatus.pending ∧
          (refreshIssue issue now).status = IssueStatus.in_progress) ∨
        (target = IssueStatus.completed ∧
          ((refreshIssue issue now).status = IssueStatus.in_progress ∨
           (refreshIssue issue now).status = IssueStatus.pending))) := by
      have hst : (refreshIssue issue now).status = issue.status := rfl
      rw [hst]
      exact specAllowedEdge_false_staff _ _ hedge
    rw [if_neg hcond]

/-- **C2** witness: the reporter attempting open → completed. -/
theorem invalid_edge_rejected_for_scoped_nonadmin_witness :
    patchIssueStatus
        (singleIssueStore
          (sampleIssue 5 IssueStatus.open_ Department.it 42 0 (some SLAPriority.critical)
            (some 14400000) false))
        reporterEmp 5 IssueStatus.completed 7 =
      (RouteResponse.err RouteError.invalidTransition,
       (singleIssueStore
          (sampleIssue 5 IssueStatus.open_ Department.it 42 0 (some SLAPriority.critical)
            (some 14400000) false)).setIssueState
         (refreshIssue
           (sampleIssue 5 IssueStatus.open_ Department.it 42 0 (some SLAPriority.critical)
             (some 14400000) false) 7)) :=
  invalid_edge_rejected_for_scoped_nonadmin _ reporterEmp 5 IssueStatus.completed 7
    (sampleIssue 5 IssueStatus.open_ Department.it 42 0 (some SLAPriority.critical)
      (some 14400000) false)
    (by decide) (Or.inl ⟨rfl, rfl⟩) (by decide)

/-- **C3** (counterexample): the claim requires the reporter's
escalation to be rejected when none of the conditions (SLA breached,
status rejected, more than 48h elapsed) holds; in the code the reporter
branch "for testing purposes" applies no such gate, so escalating a
fresh on-track issue one hour after creation succeeds. -/
theorem reporter_escalates_fresh_issue_successfully :
    calculateSlaStatus
        (sampleIssue 1 IssueStatus.open_ Department.it 42 0 (some SLAPriority.low)
          (some 172800000) false) 3600000 ≠ SLAStatus.breached ∧
    (sampleIssue 1 IssueStatus.open_ Department.it 42 0 (some SLAPriority.low)
        (some 172800000) false).status ≠ IssueStatus.rejected ∧
    ((3600000 : Int) -
      (sampleIssue 1 IssueStatus.open_ Department.it 42 0 (some SLAPriority.low)
        (some 172800000) false).createdAt) < 48 * msPerHour ∧
    (patchIssueEscalate
        (singleIssueStore
          (sampleIssue 1 IssueStatus.open_ Department.it 42 0 (some SLAPriority.low)
            (some 172800000) false))
        reporterEmp 1 none 3600000).1 =
      RouteResponse.ok (some
        (applyEscalate
          (refreshIssue
            (sampleIssue 1 IssueStatus.open_ Department.it 42 0 (some SLAPriority.low)
              (some 172800000) false) 3600000) 3600000)) := by decide

/-- **C3** (amended): the reporter's escalation of their own
non-escalated, non-terminal issue always succeeds — the server enforces
no breached/rejected/48-hour condition (that gate exists only in the
client UI): the issue is stored escalated with `status = escalated`. -/
theorem reporter_escalate_needs_no_conditions
    (s : MemStorage) (user : User) (id : Nat) (reason : Option String) (now : Int) (issue : Issue)
    (hfind : findIssue s id = some issue)
    (hrole : user.role = UserRole.employee)
    (hrep : issue.reporterId = user.id)
    (hesc : issue.isEscalated = false)
    (hv : issue.status ≠ IssueStatus.verified)
    (hc : issue.status ≠ IssueStatus.closed) :
    (patchIssueEscalate s user id reason now).1 =
      RouteResponse.ok (some (applyEscalate (refreshIssue issue now) now)) ∧
    (applyEscalate (refreshIssue issue now) now).isEscalated = true ∧
    (applyEscalate (refreshIssue issue now) now).status = IssueStatus.escalated ∧
    findIssue (patchIssueEscalate s user id reason now).2 id =
      some (applyEscalate (refreshIssue issue now) now) := by
  have hid : issue.id = id := findIssue_id_eq hfind
  have hfind2 : findIssue (s.setIssueState (refreshIssue issue now)) id =
      some (refreshIssue issue now) :=
    findIssue_setIssueState _ _ _ (by rw [refreshIssue_id]; exact hid)
  have hstep : patchIssueEscalate s user id reason now =
      (RouteResponse.ok (some (applyEscalate (refreshIssue issue now) now)),
       { ((s.setIssueState (refreshIssue issue now)).setIssueState
            (refreshIssue issue now)).setIssueState
           (applyEscalate (refreshIssue issue now) now) with
         activitiesMap := s.activitiesMap ++
           [{ id := s.activityIdCounter, issueId := id, userId := user.id,
              action := "escalated",
              details := ActivityDetails.escalatedReason (reason.getD "Manual escalation"),
              createdAt := now }],
         activityIdCounter := s.activityIdCounter + 1 }) := by
    unfold patchIssueEscalate
    rw [getIssue_found now hfind]
    dsimp only
    rw [hrole, if_pos rfl]
    rw [if_neg (by simp [refreshIssue, hrep])]
    rw [if_neg (by simp [refreshIssue, hesc])]
    rw [if_neg (by simp [refreshIssue, hv, hc])]
    rw [escalateIssue_found now hfind2]
    unfold MemStorage.createActivity MemStorage.setIssueState
    dsimp only
    rfl
  rw [hstep]
  refine ⟨rfl, rfl, rfl, ?_⟩
  have hmap : ({ ((s.setIssueState (refreshIssue issue now)).setIssueState
        (refreshIssue issue now)).setIssueState
      (applyEscalate (refreshIssue issue now) now) with
        activitiesMap := s.activitiesMap ++
          [{ id := s.activityIdCounter, issueId := id, userId := user.id,
             action := "escalated",
             details := ActivityDetails.escalatedReason (reason.getD "Manual escalation"),
             createdAt := now }],
        activityIdCounter := s.activityIdCounter + 1 } : MemStorage).issuesMap =
      (((s.setIssueState (refreshIssue issue now)).setIssueState
          (refreshIssue issue now)).setIssueState
        (applyEscalate (refreshIssue issue now) now)).issuesMap := rfl
  unfold findIssue
  rw [hmap]
  have h3 := findIssue_setIssueState
    ((s.setIssueState (refreshIssue issue now)).setIssueState (refreshIssue issue now))
    (applyEscalate (refreshIssue issue now) now) id
    (by rw [show (applyEscalate (refreshIssue issue now) now).id = issue.id from rfl];
        exact hid)
  unfold findIssue at h3
  exact h3

/-- **C3** witness: the reporter escalates their in-progress issue. -/
theorem reporter_escalate_needs_no_conditions_witness :
    (patchIssueEscalate
        (singleIssueStore
          (sampleIssue 6 IssueStatus.in_progress Department.it 42 100
            (some SLAPriority.high) (some 28900000) false))
        reporterEmp 6 (some "stuck") 200).1 =
      RouteResponse.ok (some
        (applyEscalate
          (refreshIssue
            (sampleIssue 6 IssueStatus.in_progress Department.it 42 100
              (some SLAPriority.high) (some 28900000) false) 200) 200)) ∧
    (applyEscalate
        (refreshIssue
          (sampleIssue 6 IssueStatus.in_progress Department.it 42 100
            (some SLAPriority.high) (some 28900000) false) 200) 200).isEscalated = true :=
  ⟨(reporter_escalate_needs_no_conditions
      (singleIssueStore
        (sampleIssue 6 IssueStatus.in_progress Department.it 42 100
          (some SLAPriority.high) (some 28900000) false))
      reporterEmp 6 (some "stuck") 200
      (sampleIssue 6 IssueStatus.in_progress Department.it 42 100
        (some SLAPriority.high) (some 28900000) false)
      (by decide) rfl rfl rfl (by decide) (by decide)).1,
   (reporter_escalate_needs_no_conditions
      (singleIssueStore
        (sampleIssue 6 IssueStatus.in_progress Department.it 42 100
          (some SLAPriority.high) (some 28900000) false))
      reporterEmp 6 (some "stuck") 200
      (sampleIssue 6 IssueStatus.in_progress Department.it 42 100
        (some SLAPriority.high) (some 28900000) false)
      (by decide) rfl rfl rfl (by decide) (by decide)).2.1⟩

/-- **C4** (counterexample): the claim quantifies over every actor
permitted to escalate, but the already-escalated and verified/closed
checks exist only in the Employee branch: an Admin escalating an
already-escalated issue succeeds instead of failing `AlreadyEscalated`. -/
theorem admin_escalate_skips_guards :
    (sampleIssue 1 IssueStatus.escalated Department.it 42 0 (some SLAPriority.critical)
      (some 14400000) true).isEscalated = true ∧
    (patchIssueEscalate
        (singleIssueStore
          (sampleIssue 1 IssueStatus.escalated Department.it 42 0 (some SLAPriority.critical)
            (some 14400000) true))
        adminUser 1 none 1000).1 ≠
      RouteResponse.err RouteError.alreadyEscalated ∧
    (patchIssueEscalate
        (singleIssueStore
          (sampleIssue 1 IssueStatus.escalated Department.it 42 0 (some SLAPriority.critical)
            (some 14400000) true))
        adminUser 1 none 1000).1 =
      RouteResponse.ok (some
        (applyEscalate
          (refreshIssue
            (sampleIssue 1 IssueStatus.escalated Department.it 42 0 (some SLAPriority.critical)
              (some 14400000) true) 1000) 1000)) := by decide

/-- **C4** (amended): for an Employee reporter, escalate fails with
`AlreadyEscalated` when the flag is already set, and with
`InvalidTransition` when the issue is verified or closed (and not yet
escalated); in both cases the store keeps only the read path's
`slaStatus` refresh of the issue (no escalation, no activity).
Department-Staff and Admin escalations bypass both checks. -/
theorem employee_escalate_guards
    (s : MemStorage) (user : User) (id : Nat) (reason : Option String) (now : Int) (issue : Issue)
    (hfind : findIssue s id = some issue)
    (hrole : user.role = UserRole.employee)
    (hrep : issue.reporterId = user.id) :
    (issue.isEscalated = true →
      patchIssueEscalate s user id reason now =
        (RouteResponse.err RouteError.alreadyEscalated,
         s.setIssueState (refreshIssue issue now))) ∧
    (issue.isEscalated = false →
      (issue.status = IssueStatus.verified ∨ issue.status = IssueStatus.closed) →
      patchIssueEscalate s user id reason now =
        (RouteResponse.err RouteError.invalidTransition,
         s.setIssueState (refreshIssue issue now))) := by
  constructor
  · intro hesc
    unfold patchIssueEscalate
    rw [getIssue_found now hfind]
    dsimp only
    rw [hrole, if_pos rfl]
    rw [if_neg (by simp [refreshIssue, hrep])]
    rw [if_pos (show (refreshIssue issue now).isEscalated = true from hesc)]
  · intro hesc hterm
    unfold patchIssueEscalate
    rw [getIssue_found now hfind]
    dsimp only
    rw [hrole, if_pos rfl]
    rw [if_neg (by simp [refreshIssue, hrep])]
    rw [if_neg (by simp [refreshIssue, hesc])]
    rw [if_pos (show (refreshIssue issue now).status = IssueStatus.verified ∨
        (refreshIssue issue now).status = IssueStatus.closed from hterm)]

/-- **C4** witness: the reporter retrying an escalated issue, and the
reporter escalating a verified issue. -/
theorem employee_escalate_guards_witness :
    patchIssueEscalate
        (singleIssueStore
          (sampleIssue 7 IssueStatus.escalated Department.it 42 0 (some SLAPriority.critical)
            (some 14400000) true))
        reporterEmp 7 none 9 =
      (RouteResponse.err RouteError.alreadyEscalated,
       (singleIssueStore
          (sampleIssue 7 IssueStatus.escalated Department.it 42 0 (some SLAPriority.critical)
            (some 14400000) true)).setIssueState
         (refreshIssue
           (sampleIssue 7 IssueStatus.escalated Department.it 42 0 (some SLAPriority.critical)
             (some 14400000) true) 9)) ∧
    patchIssueEscalate
        (singleIssueStore
          (sampleIssue 8 IssueStatus.verified Department.it 42 0 (some SLAPriority.critical)
            (some 14400000) false))
        reporterEmp 8 none 9 =
      (RouteResponse.err RouteError.invalidTransition,
       (singleIssueStore
          (sampleIssue 8 IssueStatus.verified Department.it 42 0 (some SLAPriority.critical)
            (some 14400000) false)).setIssueState
         (refreshIssue
           (sampleIssue 8 IssueStatus.verified Department.it 42 0 (some SLAPriority.critical)
             (some 14400000) false) 9)) :=
  ⟨(employee_escalate_guards _ reporterEmp 7 none 9
      (sampleIssue 7 IssueStatus.escalated Department.it 42 0 (some SLAPriority.critical)
        (some 14400000) true)
      (by decide) rfl rfl).1 rfl,
   (employee_escalate_guards _ reporterEmp 8 none 9
      (sampleIssue 8 IssueStatus.verified Department.it 42 0 (some SLAPriority.critical)
        (some 14400000) false)
      (by decide) rfl rfl).2 rfl (Or.inl rfl)⟩

/-- **C7** (counterexample): the claim says pending → in_progress is a
permitted staff edge that succeeds; the route's department branch only
matches open → in_progress, in_progress → pending and
in_progress｜pending → completed, so a same-department staff request
for pending → in_progress is rejected with `InvalidTransition`. -/
theorem staff_pending_to_in_progress_rejected :
    (patchIssueStatus
        (singleIssueStore
          (sampleIssue 1 IssueStatus.pending Department.it 42 0 (some SLAPriority.critical)
            (some 14400000) false))
        staffIT 1 IssueStatus.in_progress 1000).1 =
      RouteResponse.err RouteError.invalidTransition ∧
    (findIssue
        (patchIssueStatus
          (singleIssueStore
            (sampleIssue 1 IssueStatus.pending Department.it 42 0 (some SLAPriority.critical)
              (some 14400000) false))
          staffIT 1 IssueStatus.in_progress 1000).2 1).map Issue.status =
      some IssueStatus.pending := by decide

/-- **C7** (amended): for a same-department Department-Staff actor,
pending → in_progress is rejected with `InvalidTransition`; the staff
edges that are permitted and succeed are open → in_progress,
in_progress → pending, in_progress → completed and
pending → completed, each storing the target status. -/
theorem staff_transition_edges
    (s : MemStorage) (user : User) (id : Nat) (now : Int) (issue : Issue)
    (hfind : findIssue s id = some issue)
    (hrole : user.role = UserRole.department)
    (hdept : issue.department = user.department) :
    (issue.status = IssueStatus.pending →
      (patchIssueStatus s user id IssueStatus.in_progress now).1 =
        RouteResponse.err RouteError.invalidTransition) ∧
    (issue.status = IssueStatus.open_ →
      (patchIssueStatus s user id IssueStatus.in_progress now).1 =
        RouteResponse.ok (some (applyStatus (refreshIssue issue now) IssueStatus.in_progress now))) ∧
    (issue.status = IssueStatus.in_progress →
      (patchIssueStatus s user id IssueStatus.pending now).1 =
        RouteResponse.ok (some (applyStatus (refreshIssue issue now) IssueStatus.pending now))) ∧
    (issue.status = IssueStatus.in_progress →
      (patchIssueStatus s user id IssueStatus.completed now).1 =
        RouteResponse.ok (some (applyStatus (refreshIssue issue now) IssueStatus.completed now))) ∧
    (issue.status = IssueStatus.pending →
      (patchIssueStatus s user id IssueStatus.completed now).1 =
        RouteResponse.ok (some (applyStatus (refreshIssue issue now) IssueStatus.completed now))) ∧
    (applyStatus (refreshIssue issue now) IssueStatus.in_progress now).status =
      IssueStatus.in_progress ∧
    (applyStatus (refreshIssue issue now) IssueStatus.pending now).status =
      IssueStatus.pending ∧
    (applyStatus (refreshIssue issue now) IssueStatus.completed now).status =
      IssueStatus.completed := by
  have hid : issue.id = id := findIssue_id_eq hfind
  have hfind2 : findIssue (s.setIssueState (refreshIssue issue now)) id =
      some (refreshIssue issue now) :=
    findIssue_setIssueState _ _ _ (by rw [refreshIssue_id]; exact hid)
  have hs : (refreshIssue issue now).status = issue.status := rfl
  refine ⟨?_, ?_, ?_, ?_, ?_, rfl, rfl, rfl⟩ <;> intro hst <;>
    unfold patchIssueStatus <;> rw [getIssue_found now hfind] <;> dsimp only <;>
    rw [hrole, if_neg (by decide), if_pos rfl, if_neg (by simp [refreshIssue, hdept])]
  · rw [if_neg (by rw [hs, hst]; decide)]
  · rw [if_pos (by rw [hs, hst]; decide)]
    rw [updateIssueStatus_found IssueStatus.in_progress now hfind2]
    unfold MemStorage.createActivity
    dsimp only
    rfl
  · rw [if_pos (by rw [hs, hst]; decide)]
    rw [updateIssueStatus_found IssueStatus.pending now hfind2]
    unfold MemStorage.createActivity
    dsimp only
    rfl
  · rw [if_pos (by rw [hs, hst]; decide)]
    rw [updateIssueStatus_found IssueStatus.completed now hfind2]
    unfold MemStorage.createActivity
    dsimp only
    rfl
  · rw [if_pos (by rw [hs, hst]; decide)]
    rw [updateIssueStatus_found IssueStatus.completed now hfind2]
    unfold MemStorage.createActivity
    dsimp only
    rfl

/-- **C7** witness: an IT staff member on a pending IT issue — the
pending → in_progress request is rejected, the pending → completed
request succeeds. -/
theorem staff_transition_edges_witness :
    (patchIssueStatus
        (singleIssueStore
          (sampleIssue 9 IssueStatus.pending Department.it 42 0 (some SLAPriority.critical)
            (some 14400000) false))
        staffIT 9 IssueStatus.in_progress 11).1 =
      RouteResponse.err RouteError.invalidTransition ∧
    (patchIssueStatus
        (singleIssueStore
          (sampleIssue 9 IssueStatus.pending Department.it 42 0 (some SLAPriority.critical)
            (some 14400000) false))
        staffIT 9 IssueStatus.completed 11).1 =
      RouteResponse.ok (some
        (applyStatus
          (refreshIssue
            (sampleIssue 9 IssueStatus.pending Department.it 42 0 (some SLAPriority.critical)
              (some 14400000) false) 11) IssueStatus.completed 11)) :=
  ⟨(staff_transition_edges
      (singleIssueStore
        (sampleIssue 9 IssueStatus.pending Department.it 42 0 (some SLAPriority.critical)
          (some 14400000) false))
      staffIT 9 11
      (sampleIssue 9 IssueStatus.pending Department.it 42 0 (some SLAPriority.critical)
        (some 14400000) false)
      (by decide) rfl rfl).1 rfl,
   (staff_transition_edges
      (singleIssueStore
        (sampleIssue 9 IssueStatus.pending Department.it 42 0 (some SLAPriority.critical)
          (some 14400000) false))
      staffIT 9 11
      (sampleIssue 9 IssueStatus.pending Department.it 42 0 (some SLAPriority.critical)
        (some 14400000) false)
      (by decide) rfl rfl).2.2.2.2.1 rfl⟩

/-- **C9** (spec-modelled storage method): an Admin reassigning an
existing issue to a different valid department succeeds: the stored
issue's department becomes the new one, its status and escalation flag
are unchanged, and exactly one `department_changed` activity carrying
the old and new department is appended. -/
theorem reassign_department_effects
    (s : MemStorage) (user : User) (id : Nat) (d : Department) (now : Int) (issue : Issue)
    (hrole : user.role = UserRole.admin)
    (hfind : findIssue s id = some issue)
    (hne : issue.department ≠ d) :
    (patchReassignDepartment s user id (some d) now).1 =
      RouteResponse.ok (some (applyDepartment (refreshIssue issue now) d now)) ∧
    (applyDepartment (refreshIssue issue now) d now).department = d ∧
    (applyDepartment (refreshIssue issue now) d now).status = issue.status ∧
    (applyDepartment (refreshIssue issue now) d now).isEscalated = issue.isEscalated ∧
    findIssue (patchReassignDepartment s user id (some d) now).2 id =
      some (applyDepartment (refreshIssue issue now) d now) ∧
    (patchReassignDepartment s user id (some d) now).2.activitiesMap =
      s.activitiesMap ++
        [{ id := s.activityIdCounter, issueId := id, userId := user.id,
           action := "department_changed",
           details := ActivityDetails.departmentChanged issue.department d,
           createdAt := now }] := by
  have hid : issue.id = id := findIssue_id_eq hfind
  have hfind2 : findIssue (s.setIssueState (refreshIssue issue now)) id =
      some (refreshIssue issue now) :=
    findIssue_setIssueState _ _ _ (by rw [refreshIssue_id]; exact hid)
  have hstep : patchReassignDepartment s user id (some d) now =
      (RouteResponse.ok (some (applyDepartment (refreshIssue issue now) d now)),
       { ((s.setIssueState (refreshIssue issue now)).setIssueState
            (refreshIssue issue now)).setIssueState
           (applyDepartment (refreshIssue issue now) d now) with
         activitiesMap := s.activitiesMap ++
           [{ id := s.activityIdCounter, issueId := id, userId := user.id,
              action := "department_changed",
              details := ActivityDetails.departmentChanged issue.department d,
              createdAt := now }],
         activityIdCounter := s.activityIdCounter + 1 }) := by
    unfold patchReassignDepartment
    rw [hrole, if_neg (by simp)]
    dsimp only
    rw [getIssue_found now hfind]
    dsimp only
    rw [if_neg (by simpa [refreshIssue] using hne)]
    rw [updateIssueDepartment_found d now hfind2]
    unfold MemStorage.createActivity MemStorage.setIssueState
    dsimp only
    rfl
  rw [hstep]
  refine ⟨rfl, rfl, rfl, rfl, ?_, rfl⟩
  have hmap : ({ ((s.setIssueState (refreshIssue issue now)).setIssueState
        (refreshIssue issue now)).setIssueState
      (applyDepartment (refreshIssue issue now) d now) with
        activitiesMap := s.activitiesMap ++
          [{ id := s.activityIdCounter, issueId := id, userId := user.id,
             action := "department_changed",
             details := ActivityDetails.departmentChanged issue.department d,
             createdAt := now }],
        activityIdCounter := s.activityIdCounter + 1 } : MemStorage).issuesMap =
      (((s.setIssueState (refreshIssue issue now)).setIssueState
          (refreshIssue issue now)).setIssueState
        (applyDepartment (refreshIssue issue now) d now)).issuesMap := rfl
  unfold findIssue
  rw [hmap]
  have h3 := findIssue_setIssueState
    ((s.setIssueState (refreshIssue issue now)).setIssueState (refreshIssue issue now))
    (applyDepartment (refreshIssue issue now) d now) id
    (by rw [show (applyDepartment (refreshIssue issue now) d now).id = issue.id from rfl];
        exact hid)
  unfold findIssue at h3
  exact h3

/-- **C9** witness: the Admin moves an escalated IT issue to HR. -/
theorem reassign_department_effects_witness :
    (patchReassignDepartment
        (singleIssueStore
          (sampleIssue 12 IssueStatus.escalated Department.it 42 0 (some SLAPriority.critical)
            (some 14400000) true))
        adminUser 12 (some Department.hr) 13).1 =
      RouteResponse.ok (some
        (applyDepartment
          (refreshIssue
            (sampleIssue 12 IssueStatus.escalated Department.it 42 0 (some SLAPriority.critical)
              (some 14400000) true) 13) Department.hr 13)) ∧
    (applyDepartment
        (refreshIssue
          (sampleIssue 12 IssueStatus.escalated Department.it 42 0 (some SLAPriority.critical)
            (some 14400000) true) 13) Department.hr 13).department = Department.hr ∧
    (applyDepartment
        (refreshIssue
          (sampleIssue 12 IssueStatus.escalated Department.it 42 0 (some SLAPriority.critical)
            (some 14400000) true) 13) Department.hr 13).isEscalated = true :=
  ⟨(reassign_department_effects
      (singleIssueStore
        (sampleIssue 12 IssueStatus.escalated Department.it 42 0 (some SLAPriority.critical)
          (some 14400000) true))
      adminUser 12 Department.hr 13
      (sampleIssue 12 IssueStatus.escalated Department.it 42 0 (some SLAPriority.critical)
        (some 14400000) true)
      rfl (by decide) (by decide)).1,
   (reassign_department_effects
      (singleIssueStore
        (sampleIssue 12 IssueStatus.escalated Department.it 42 0 (some SLAPriority.critical)
          (some 14400000) true))
      adminUser 12 Department.hr 13
      (sampleIssue 12 IssueStatus.escalated Department.it 42 0 (some SLAPriority.critical)
        (some 14400000) true)
      rfl (by decide) (by decide)).2.1,
   (reassign_department_effects
      (singleIssueStore
        (sampleIssue 12 IssueStatus.escalated Department.it 42 0 (some SLAPriority.critical)
          (some 14400000) true))
      adminUser 12 Department.hr 13
      (sampleIssue 12 IssueStatus.escalated Department.it 42 0 (some SLAPriority.critical)
        (some 14400000) true)
      rfl (by decide) (by decide)).2.2.2.1⟩

/-- **C6**: for a non-terminal issue with a deadline, the computed SLA
status is `breached` once `now` passes `dueBy`, and otherwise follows
the spec's percentage formula
`percentLeft = (dueBy - now) / (dueBy - createdAt) * 100`: `at_risk`
when `percentLeft ≤ 25`, `on_track` above (the formula's denominator
requires `createdAt < dueBy`, which holds for every created issue).
In particular an issue created with priority critical at `t0` reads
`at_risk` at `t0 + 3h15m` and `breached` at `t0 + 4h01m`. -/
theorem sla_formula_and_critical_timeline
    (issue : Issue) (now d : Int) (insertIssue : InsertIssue) (idc : Nat) (t0 : Int)
    (hdue : issue.dueBy = some d)
    (hv : issue.status ≠ IssueStatus.verified)
    (hc : issue.status ≠ IssueStatus.closed)
    (hlt : issue.createdAt < d)
    (hcrit : insertIssue.priority = some SLAPriority.critical)
    (hopen : insertIssue.status = IssueStatus.open_) :
    (d < now → calculateSlaStatus issue now = SLAStatus.breached) ∧
    (now ≤ d →
      calculateSlaStatus issue now =
        (if ((d : ℚ) - (now : ℚ)) / ((d : ℚ) - (issue.createdAt : ℚ)) * 100 ≤ 25
          then SLAStatus.at_risk else SLAStatus.on_track)) ∧
    calculateSlaStatus (createIssueRecord insertIssue idc t0)
      (t0 + 3 * msPerHour + 900000) = SLAStatus.at_risk ∧
    calculateSlaStatus (createIssueRecord insertIssue idc t0)
      (t0 + 4 * msPerHour + 60000) = SLAStatus.breached := by
  have hmain := calculateSlaStatus_nonterminal issue now d hdue hv hc
  have hduec : (createIssueRecord insertIssue idc t0).dueBy = some (t0 + 4 * msPerHour) := by
    simp [createIssueRecord, hcrit, hoursToAdd]
  have hvc : (createIssueRecord insertIssue idc t0).status ≠ IssueStatus.verified := by
    simp [createIssueRecord, hopen]
  have hcc : (createIssueRecord insertIssue idc t0).status ≠ IssueStatus.closed := by
    simp [createIssueRecord, hopen]
  have hca : (createIssueRecord insertIssue idc t0).createdAt = t0 := rfl
  refine ⟨?_, ?_, ?_, ?_⟩
  · intro h
    rw [hmain, if_pos h]
  · intro h
    rw [hmain, if_neg (not_lt.mpr h)]
    have hT : (0 : Int) < d - issue.createdAt := by omega
    have hiff := percentTimeLeftLe25_iff (d - now) (d - issue.createdAt) hT
    have hcast : (((d - now : Int) : ℚ) / ((d - issue.createdAt : Int) : ℚ)) * 100 =
        ((d : ℚ) - (now : ℚ)) / ((d : ℚ) - (issue.createdAt : ℚ)) * 100 := by
      push_cast; ring
    rw [hcast] at hiff
    by_cases hq : ((d : ℚ) - (now : ℚ)) / ((d : ℚ) - (issue.createdAt : ℚ)) * 100 ≤ 25
    · rw [if_pos (hiff.mpr hq), if_pos hq]
    · rw [if_neg (fun hb => hq (hiff.mp hb)), if_neg hq]
  · have h2 := calculateSlaStatus_nonterminal (createIssueRecord insertIssue idc t0)
      (t0 + 3 * msPerHour + 900000) (t0 + 4 * msPerHour) hduec hvc hcc
    rw [h2, hca]
    rw [if_neg (by simp only [msPerHour]; omega)]
    rw [show (t0 + 4 * msPerHour) - (t0 + 3 * msPerHour + 900000) = (2700000 : Int) from by
      simp only [msPerHour]; ring]
    rw [show (t0 + 4 * msPerHour) - t0 = (14400000 : Int) from by
      simp only [msPerHour]; ring]
    rw [if_pos (show percentTimeLeftLe25 2700000 14400000 = true from by decide)]
  · have h2 := calculateSlaStatus_nonterminal (createIssueRecord insertIssue idc t0)
      (t0 + 4 * msPerHour + 60000) (t0 + 4 * msPerHour) hduec hvc hcc
    rw [h2, if_pos (by simp only [msPerHour]; omega)]

/-- **C6** witness: a concrete open critical issue created at time 0. -/
theorem sla_formula_and_critical_timeline_witness :
    calculateSlaStatus
      (sampleIssue 1 IssueStatus.open_ Department.it 42 0 (some SLAPriority.critical)
        (some 14400000) false) 14460000 = SLAStatus.breached ∧
    calculateSlaStatus
      (createIssueRecord
        { title := "Printer broken", description := "The office printer is down",
          department := Department.it, status := IssueStatus.open_,
          priority := some SLAPriority.critical, reporterId := 42 } 1 0)
      ((0 : Int) + 3 * msPerHour + 900000) = SLAStatus.at_risk ∧
    calculateSlaStatus
      (createIssueRecord
        { title := "Printer broken", description := "The office printer is down",
          department := Department.it, status := IssueStatus.open_,
          priority := some SLAPriority.critical, reporterId := 42 } 1 0)
      ((0 : Int) + 4 * msPerHour + 60000) = SLAStatus.breached :=
  ⟨(sla_formula_and_critical_timeline
      (sampleIssue 1 IssueStatus.open_ Department.it 42 0 (some SLAPriority.critical)
        (some 14400000) false) 14460000 14400000
      { title := "Printer broken", description := "The office printer is down",
        department := Department.it, status := IssueStatus.open_,
        priority := some SLAPriority.critical, reporterId := 42 } 1 0
      rfl (by decide) (by decide) (by decide) rfl rfl).1 (by decide),
   (sla_formula_and_critical_timeline
      (sampleIssue 1 IssueStatus.open_ Department.it 42 0 (some SLAPriority.critical)
        (some 14400000) false) 14460000 14400000
      { title := "Printer broken", description := "The office printer is down",
        department := Department.it, status := IssueStatus.open_,
        priority := some SLAPriority.critical, reporterId := 42 } 1 0
      rfl (by decide) (by decide) (by decide) rfl rfl).2.2.1,
   (sla_formula_and_critical_timeline
      (sampleIssue 1 IssueStatus.open_ Department.it 42 0 (some SLAPriority.critical)
        (some 14400000) false) 14460000 14400000
      { title := "Printer broken", description := "The office printer is down",
        department := Department.it, status := IssueStatus.open_,
        priority := some SLAPriority.critical, reporterId := 42 } 1 0
      rfl (by decide) (by decide) (by decide) rfl rfl).2.2.2⟩

end RapidTrack
